import Mathlib

/-
Verification of the service-area editor core of the local-pages repository.

The development shallowly embeds the TypeScript source:
  - src/lib/supabase/client/service_area.ts   (Persistence Gateway wrappers)
  - src/app/api/service_area.ts               (server actions)
  - src/unnamed/part_003                      (variant of the server actions)
  - src/components/locations/LocationsMap.tsx (editor component / Mode Controller)

Conventions of the embedding:
  - The Supabase/PostgREST store is a list of rows; filters model the
    query-builder eq chains, insert appends a row whose identifier is supplied
    as a fresh-id parameter, and a select-single call errors unless exactly one
    row matched (PostgREST PGRST116 behaviour).
  - JSON serialisation across the FormData boundary is modelled structurally:
    a form value that JSON-parses to a geometry is represented by the geo
    constructor, so that parse after stringify is the identity, and any string
    that does not parse is represented by the other constructors.
  - Asynchronous fire-and-forget calls of the component are sequenced in
    program order; each handler returns its new state, the toasts it emitted
    and the log of Gateway calls it issued.
-/

namespace LocalPages

/-- GeoJSON geometry as handled by the code. The code only ever inspects the
type tag and forwards coordinates opaquely; a GeometryCollection's members are
never inspected, so they are modelled by their count. -/
inductive GeoJson where
  | polygon (rings : List (List (Int × Int)))
  | multiPolygon (polys : List (List (List (Int × Int))))
  | geometryCollection (members : Nat)
deriving DecidableEq, Repr

/-- The type tag of a geometry, as read by newServiceArea.type in the component. -/
def GeoJson.typeName : GeoJson → String
  | .polygon _ => "Polygon"
  | .multiPolygon _ => "MultiPolygon"
  | .geometryCollection _ => "GeometryCollection"

/-- Model of JSON.stringify on a geometry; the exact text is never inspected by
the code, only its emptiness (JS falsiness) and its parse result matter. -/
def GeoJson.encode : GeoJson → String
  | .polygon rings => "Polygon " ++ toString rings
  | .multiPolygon polys => "MultiPolygon " ++ toString polys
  | .geometryCollection n => "GeometryCollection " ++ toString n

/-- A FormData entry value. A string that JSON.parse accepts as a geometry is
represented by geo, any other string by str or badJson. -/
inductive FormValue where
  | str (s : String)
  | geo (g : GeoJson)
  | badJson (s : String)
deriving DecidableEq, Repr

/-- The toString() coercion applied to a FormData entry. -/
def FormValue.toStr : FormValue → String
  | .str s => s
  | .geo g => g.encode
  | .badJson s => s

/-- Model of JSON.parse on the string of a form value: geo parses to its
geometry, every other value throws. -/
def parseGeoJson : FormValue → Option GeoJson
  | .geo g => some g
  | _ => none

/-- FormData is an ordered multimap of string keys to values. -/
abbrev FormData := List (String × FormValue)

/-- FormData.get returns the first value appended under the key, or null. -/
def FormData.get (fd : FormData) (k : String) : Option FormValue :=
  (fd.find? (fun p => p.1 == k)).map (fun p => p.2)

/-- JS falsiness of the optional string produced by get(...)?.toString():
absent fields and empty strings are falsy. -/
def strFalsy : Option String → Bool
  | none => true
  | some s => s == ""

/-- A row of the service_areas table. The app-level create may leave
company_id undefined, hence the Option. -/
structure ServiceAreaRow where
  id : String
  service_id : String
  company_id : Option String
  geojson : GeoJson
  is_active : Bool
  email : String
deriving DecidableEq, Repr

/-- A row of the services table, as cached by the component. -/
structure Service where
  id : String
  name : String
deriving DecidableEq, Repr

/-- Result of a single-row Gateway operation (lib/supabase/client/service_area.ts). -/
structure ServiceAreaResult where
  serviceArea : Option ServiceAreaRow
  error : Option String
deriving DecidableEq, Repr

/-- Result of a multi-row Gateway operation. -/
structure ServiceAreasResult where
  serviceAreas : Option (List ServiceAreaRow)
  error : Option String
deriving DecidableEq, Repr

/-- The payload assembled by createServiceAreaAction and passed to the insert. -/
structure CreatePayload where
  service_id : String
  company_id : Option String
  geojson : GeoJson
  is_active : Bool
  email : String
deriving DecidableEq, Repr

/-- The payload assembled by updateServiceAreaAction and passed to the update.
Note that it has no service_id field: the action never forwards one. -/
structure UpdatePayload where
  id : String
  geojson : GeoJson
  is_active : Bool
  email : String
deriving DecidableEq, Repr

/-- The eq("id", ...).eq("email", ...) filter chain used by update and delete. -/
def rowMatches (id email : String) (r : ServiceAreaRow) : Bool :=
  r.id == id && r.email == email

/-- Column assignment performed by the update payload: exactly the keys present
in the payload are overwritten, service_id and company_id are untouched. -/
def applyUpdate (p : UpdatePayload) (r : ServiceAreaRow) : ServiceAreaRow :=
  { r with id := p.id, geojson := p.geojson, is_active := p.is_active, email := p.email }

/-- createServiceArea: insert(payload).select().single(). The store assigns the
fresh identifier; the inserted row is returned. -/
def createServiceArea (freshId : String) (p : CreatePayload) (db : List ServiceAreaRow) :
    List ServiceAreaRow × ServiceAreaResult :=
  let row : ServiceAreaRow :=
    { id := freshId, service_id := p.service_id, company_id := p.company_id,
      geojson := p.geojson, is_active := p.is_active, email := p.email }
  (db ++ [row], { serviceArea := some row, error := none })

/-- updateServiceArea: update(payload).eq("id", id).eq("email", email)
.select().single(). Rows matching both filters are overwritten; single()
reports an error unless exactly one row matched. -/
def updateServiceArea (p : UpdatePayload) (db : List ServiceAreaRow) :
    List ServiceAreaRow × ServiceAreaResult :=
  let db2 := db.map (fun r => if rowMatches p.id p.email r then applyUpdate p r else r)
  match db.filter (rowMatches p.id p.email) with
  | [r] => (db2, { serviceArea := some (applyUpdate p r), error := none })
  | _ => (db2, { serviceArea := none,
                 error := some "JSON object requested, multiple (or no) rows returned" })

/-- deleteServiceArea: delete().eq("id", id).eq("email", email). Matching rows
are removed; PostgREST reports no error when zero rows match, so success is
returned unconditionally. -/
def deleteServiceArea (serviceAreaId userEmail : String) (db : List ServiceAreaRow) :
    List ServiceAreaRow × (Bool × Option String) :=
  (db.filter (fun r => !(rowMatches serviceAreaId userEmail r)), (true, none))

/-- getServiceAreasByCompanyId: select("*").eq("company_id", companyId). -/
def getServiceAreasByCompanyId (companyId : String) (db : List ServiceAreaRow) :
    ServiceAreasResult :=
  { serviceAreas := some (db.filter (fun r => r.company_id == some companyId)), error := none }

/-- The authenticated user as returned by supabase.auth.getUser(). -/
structure AuthUser where
  email : String
deriving DecidableEq, Repr

/-- The auth lookup outcome: a possibly absent user plus a possible auth error. -/
structure AuthState where
  user : Option AuthUser
  authError : Bool
deriving DecidableEq, Repr

/-- The ActionResult type of the server actions. -/
inductive ActionResult (α : Type) where
  | ok (message : String) (data : Option α)
  | err (error : String)
deriving DecidableEq, Repr

/-- A call issued to the Persistence Gateway by a server action. -/
inductive GatewayCall where
  | create (p : CreatePayload)
  | update (p : UpdatePayload)
  | delete (id email : String)
  | list (companyId : String)
deriving DecidableEq, Repr

/-- createServiceAreaAction (src/app/api/service_area.ts): auth check, field
extraction, required-field check on service_id and geojson, JSON parse, then
the Gateway insert stamped with the session email. Returns the new store, the
action result and the log of Gateway calls issued. -/
def createServiceAreaAction (auth : AuthState) (formData : FormData) (freshId : String)
    (db : List ServiceAreaRow) :
    List ServiceAreaRow × ActionResult ServiceAreaRow × List GatewayCall :=
  match auth.user with
  | none => (db, .err "User not authenticated", [])
  | some user =>
    if auth.authError then (db, .err "User not authenticated", []) else
    let serviceId := (formData.get "service_id").map FormValue.toStr
    let companyId := (formData.get "company_id").map FormValue.toStr
    let geojsonField := formData.get "geojson"
    let geojsonString := geojsonField.map FormValue.toStr
    let is_active := decide (formData.get "is_active" = some (FormValue.str "true"))
    if strFalsy serviceId || strFalsy geojsonString then
      (db, .err "Missing required fields", [])
    else
      match geojsonField.bind parseGeoJson with
      | none => (db, .err "Invalid GeoJSON format", [])
      | some geojson =>
        let payload : CreatePayload :=
          { service_id := serviceId.getD "", company_id := companyId,
            geojson := geojson, is_active := is_active, email := user.email }
        let res := createServiceArea freshId payload db
        match res.2.error with
        | some e => (res.1, .err ("Error creating service area: " ++ e),
                     [GatewayCall.create payload])
        | none => (res.1, .ok "Service area created successfully" res.2.serviceArea,
                   [GatewayCall.create payload])

/-- createServiceAreaAction of src/unnamed/part_003: identical except that the
required-field check also demands company_id. -/
def createServiceAreaActionV2 (auth : AuthState) (formData : FormData) (freshId : String)
    (db : List ServiceAreaRow) :
    List ServiceAreaRow × ActionResult ServiceAreaRow × List GatewayCall :=
  match auth.user with
  | none => (db, .err "User not authenticated", [])
  | some user =>
    if auth.authError then (db, .err "User not authenticated", []) else
    let serviceId := (formData.get "service_id").map FormValue.toStr
    let companyId := (formData.get "company_id").map FormValue.toStr
    let geojsonField := formData.get "geojson"
    let geojsonString := geojsonField.map FormValue.toStr
    let is_active := decide (formData.get "is_active" = some (FormValue.str "true"))
    if strFalsy serviceId || strFalsy geojsonString || strFalsy companyId then
      (db, .err "Missing required fields", [])
    else
      match geojsonField.bind parseGeoJson with
      | none => (db, .err "Invalid GeoJSON format", [])
      | some geojson =>
        let payload : CreatePayload :=
          { service_id := serviceId.getD "", company_id := companyId,
            geojson := geojson, is_active := is_active, email := user.email }
        let res := createServiceArea freshId payload db
        match res.2.error with
        | some e => (res.1, .err ("Error creating service area: " ++ e),
                     [GatewayCall.create payload])
        | none => (res.1, .ok "Service area created successfully" res.2.serviceArea,
                   [GatewayCall.create payload])

/-- updateServiceAreaAction (src/app/api/service_area.ts): auth check, field
extraction (company_id is read but unused), required-field check on id and
geojson, JSON parse, then the Gateway update with payload
id / geojson / is_active / email — service_id is never forwarded. -/
def updateServiceAreaAction (auth : AuthState) (formData : FormData)
    (db : List ServiceAreaRow) :
    List ServiceAreaRow × ActionResult ServiceAreaRow × List GatewayCall :=
  match auth.user with
  | none => (db, .err "User not authenticated", [])
  | some user =>
    if auth.authError then (db, .err "User not authenticated", []) else
    let serviceAreaId := (formData.get "id").map FormValue.toStr
    let geojsonField := formData.get "geojson"
    let geojsonString := geojsonField.map FormValue.toStr
    let is_active := decide (formData.get "is_active" = some (FormValue.str "true"))
    if strFalsy serviceAreaId || strFalsy geojsonString then
      (db, .err "Missing required fields", [])
    else
      match geojsonField.bind parseGeoJson with
      | none => (db, .err "Invalid GeoJSON format", [])
      | some geojson =>
        let payload : UpdatePayload :=
          { id := serviceAreaId.getD "", geojson := geojson,
            is_active := is_active, email := user.email }
        let res := updateServiceArea payload db
        match res.2.error with
        | some e => (res.1, .err ("Error updating service area: " ++ e),
                     [GatewayCall.update payload])
        | none => (res.1, .ok "Service area updated successfully" res.2.serviceArea,
                   [GatewayCall.update payload])

/-- deleteServiceAreaAction (src/app/api/service_area.ts): auth check, then the
Gateway delete scoped by the id and the session email. -/
def deleteServiceAreaAction (auth : AuthState) (serviceAreaId : String)
    (db : List ServiceAreaRow) :
    List ServiceAreaRow × ActionResult Unit × List GatewayCall :=
  match auth.user with
  | none => (db, .err "User not authenticated", [])
  | some user =>
    if auth.authError then (db, .err "User not authenticated", []) else
    let res := deleteServiceArea serviceAreaId user.email db
    if res.2.1 then
      (res.1, .ok "Service area deleted successfully" none,
       [GatewayCall.delete serviceAreaId user.email])
    else
      (res.1, .err ("Error deleting service area: " ++ (res.2.2.getD "")),
       [GatewayCall.delete serviceAreaId user.email])

/-- getServiceAreasAction (src/app/api/service_area.ts): auth check, then the
Gateway list scoped by the company id. -/
def getServiceAreasAction (auth : AuthState) (companyId : String)
    (db : List ServiceAreaRow) :
    List ServiceAreaRow × ActionResult (List ServiceAreaRow) × List GatewayCall :=
  match auth.user with
  | none => (db, .err "User not authenticated", [])
  | some _ =>
    if auth.authError then (db, .err "User not authenticated", []) else
    let res := getServiceAreasByCompanyId companyId db
    match res.error with
    | some e => (db, .err ("Error fetching service areas: " ++ e),
                 [GatewayCall.list companyId])
    | none => (db, .ok "Service areas fetched successfully" res.serviceAreas,
               [GatewayCall.list companyId])

/-- The editor interaction mode of the component (null models Idle). -/
inductive Mode where
  | drawServiceArea
  | editServiceArea
deriving DecidableEq, Repr

/-- The React state of the LocationsMap component. The layers field models the
geometries held by the transient Leaflet feature group. -/
structure MapState where
  mode : Option Mode
  serviceAreas : List ServiceAreaRow
  services : List Service
  selectedServiceArea : Option ServiceAreaRow
  newServiceArea : Option GeoJson
  selectedService : Option String
  isActive : Bool
  loading : Bool
  layers : List GeoJson
deriving DecidableEq, Repr

/-- A toast notification; isError marks the destructive variant. -/
structure Toast where
  title : String
  description : String
  isError : Bool
deriving DecidableEq, Repr

/-- A call issued by the component to a server action. -/
inductive ClientCall where
  | create (fd : FormData)
  | update (fd : FormData)
  | delete (id : String)
  | listAreas (companyId : String)
  | listServices (companyId : String)
deriving DecidableEq, Repr

/-- The server actions as seen from the component: each call returns an
ActionResult. Instantiated with serverGateway for the real semantics or with
arbitrary failing results for the error-path arguments. -/
structure Gateway where
  createSA : FormData → ActionResult ServiceAreaRow
  updateSA : FormData → ActionResult ServiceAreaRow
  deleteSA : String → ActionResult Unit
  listSA : String → ActionResult (List ServiceAreaRow)
  servicesSA : String → ActionResult (List Service)

/-- Toast shown when Save is attempted without a drawn area or a selected service. -/
def missingFieldsToast : Toast :=
  { title := "Error", description := "Please draw a service area and select a service.",
    isError := true }

/-- Toast shown when the candidate geometry of the Drawing path is not a Polygon. -/
def singlePolygonToast : Toast :=
  { title := "Error", description := "Service area must be a single polygon.",
    isError := true }

/-- Toast shown when the feature group does not hold exactly one layer. -/
def exactlyOnePolygonToast : Toast :=
  { title := "Error",
    description := "Please ensure there is exactly one polygon in the service area.",
    isError := true }

/-- JS || on a nullable string: empty or absent falls back to the default. -/
def jsOr (s : Option String) (dflt : String) : String :=
  match s with
  | none => dflt
  | some v => if v == "" then dflt else v

/-- The FormData assembled by handleSaveServiceArea, in append order. -/
def saveFormData (companyId svc : String) (g : GeoJson) (isActive : Bool) : FormData :=
  [("service_id", FormValue.str svc),
   ("company_id", FormValue.str companyId),
   ("geojson", FormValue.geo g),
   ("is_active", FormValue.str (if isActive then "true" else "false"))]

/-- The FormData assembled by handleUpdateServiceArea, in append order; the
service_id entry is the selected service, falling back to the row's service. -/
def updateFormData (companyId : String) (sel : ServiceAreaRow)
    (selectedService : Option String) (isActive : Bool) : FormData :=
  [("id", FormValue.str sel.id),
   ("geojson", FormValue.geo sel.geojson),
   ("is_active", FormValue.str (if isActive then "true" else "false")),
   ("service_id", FormValue.str (jsOr selectedService sel.service_id)),
   ("company_id", FormValue.str companyId)]

/-- loadServiceAreas: fetch the company's areas; on success replace the cache,
on failure toast and leave the cache intact. An error string that is empty is
reported as Unknown error, as in the source. -/
def loadServiceAreas (gw : Gateway) (companyId : String) (st : MapState) :
    MapState × List Toast × List ClientCall :=
  match gw.listSA companyId with
  | .ok _ (some data) =>
      ({ st with serviceAreas := data }, [], [ClientCall.listAreas companyId])
  | .ok _ none => (st, [], [ClientCall.listAreas companyId])
  | .err e =>
      (st, [{ title := "Error",
              description := "Failed to load service areas: " ++ (if e == "" then "Unknown error" else e),
              isError := true }],
       [ClientCall.listAreas companyId])

/-- loadServices: fetch the company's services; same shape as loadServiceAreas. -/
def loadServices (gw : Gateway) (companyId : String) (st : MapState) :
    MapState × List Toast × List ClientCall :=
  match gw.servicesSA companyId with
  | .ok _ (some data) =>
      ({ st with services := data }, [], [ClientCall.listServices companyId])
  | .ok _ none => (st, [], [ClientCall.listServices companyId])
  | .err e =>
      (st, [{ title := "Error",
              description := "Failed to load services: " ++ (if e == "" then "Unknown error" else e),
              isError := true }],
       [ClientCall.listServices companyId])

/-- handleCancelEdit: reset mode, selection, candidate geometry, selected
service and active flag, clear the feature group, then reload the areas. -/
def handleCancelEdit (gw : Gateway) (companyId : String) (st : MapState) :
    MapState × List Toast × List ClientCall :=
  loadServiceAreas gw companyId
    { st with mode := none, selectedServiceArea := none, newServiceArea := none,
              selectedService := none, isActive := true, layers := [] }

/-- handleSaveServiceArea: the Drawing save path. Missing candidate geometry or
missing (or JS-falsy) selected service aborts with the missing-fields toast; a
non-Polygon candidate aborts with the single-polygon toast; otherwise the
create action runs, and on success the handler toasts, reloads, and runs
handleCancelEdit (which reloads again). -/
def handleSaveServiceArea (gw : Gateway) (companyId : String) (st : MapState) :
    MapState × List Toast × List ClientCall :=
  match st.newServiceArea, st.selectedService with
  | some g, some svc =>
    if svc == "" then (st, [missingFieldsToast], [])
    else if g.typeName ≠ "Polygon" then (st, [singlePolygonToast], [])
    else
      let fd := saveFormData companyId svc g st.isActive
      match gw.createSA fd with
      | .ok _ _ =>
          let r1 := loadServiceAreas gw companyId { st with loading := false }
          let r2 := handleCancelEdit gw companyId r1.1
          (r2.1,
           { title := "Success", description := "Service area saved successfully!",
             isError := false } :: (r1.2.1 ++ r2.2.1),
           ClientCall.create fd :: (r1.2.2 ++ r2.2.2))
      | .err e =>
          ({ st with loading := false },
           [{ title := "Error", description := "Failed to save service area: " ++ e,
              isError := true }],
           [ClientCall.create fd])
  | _, _ => (st, [missingFieldsToast], [])

/-- handleUpdateServiceArea: the Editing save path. A missing selection is a
silent no-op; otherwise the update action runs on the edited values with no
geometry-type check, and on success the handler toasts, reloads, and runs
handleCancelEdit (which reloads again). -/
def handleUpdateServiceArea (gw : Gateway) (companyId : String) (st : MapState) :
    MapState × List Toast × List ClientCall :=
  match st.selectedServiceArea with
  | none => (st, [], [])
  | some sel =>
      let fd := updateFormData companyId sel st.selectedService st.isActive
      match gw.updateSA fd with
      | .ok _ _ =>
          let r1 := loadServiceAreas gw companyId { st with loading := false }
          let r2 := handleCancelEdit gw companyId r1.1
          (r2.1,
           { title := "Success", description := "Service area updated successfully!",
             isError := false } :: (r1.2.1 ++ r2.2.1),
           ClientCall.update fd :: (r1.2.2 ++ r2.2.2))
      | .err e =>
          ({ st with loading := false },
           [{ title := "Error", description := "Failed to update service area: " ++ e,
              isError := true }],
           [ClientCall.update fd])

/-- handleDeleteServiceArea: a missing selection is a silent no-op; otherwise
the delete action runs, and on success the handler toasts, reloads, and runs
handleCancelEdit (which reloads again). -/
def handleDeleteServiceArea (gw : Gateway) (companyId : String) (st : MapState) :
    MapState × List Toast × List ClientCall :=
  match st.selectedServiceArea with
  | none => (st, [], [])
  | some sel =>
      match gw.deleteSA sel.id with
      | .ok _ _ =>
          let r1 := loadServiceAreas gw companyId { st with loading := false }
          let r2 := handleCancelEdit gw companyId r1.1
          (r2.1,
           { title := "Success", description := "Service area deleted successfully!",
             isError := false } :: (r1.2.1 ++ r2.2.1),
           ClientCall.delete sel.id :: (r1.2.2 ++ r2.2.2))
      | .err e =>
          ({ st with loading := false },
           [{ title := "Error", description := "Failed to delete service area: " ++ e,
              isError := true }],
           [ClientCall.delete sel.id])

/-- updateSelectedServiceAreaGeometries: if the feature group holds exactly one
layer, adopt its geometry into the selected area; otherwise surface the
exactly-one-polygon toast and change nothing. -/
def updateSelectedServiceAreaGeometries (st : MapState) : MapState × List Toast :=
  match st.layers with
  | [g] =>
      ({ st with selectedServiceArea :=
           st.selectedServiceArea.map (fun a => { a with geojson := g }) }, [])
  | _ => (st, [exactlyOnePolygonToast])

/-- onCreated: the feature group is cleared before the new layer is added, so
at most one layer remains. In Drawing mode the new geometry becomes the
candidate; in Editing mode it is adopted via updateSelectedServiceAreaGeometries. -/
def onCreated (st : MapState) (layerGeom : GeoJson) : MapState × List Toast :=
  let st0 := { st with layers := [] }
  match st.mode with
  | some Mode.drawServiceArea =>
      ({ st0 with newServiceArea := some layerGeom, layers := [layerGeom] }, [])
  | some Mode.editServiceArea =>
      match st.selectedServiceArea with
      | some _ => updateSelectedServiceAreaGeometries { st0 with layers := [layerGeom] }
      | none => (st0, [])
  | none => (st0, [])

/-- The Gateway realised by the server actions over a fixed auth state and
store snapshot (each call sees the snapshot; sufficient for single-mutation
scenarios). -/
def serverGateway (auth : AuthState) (freshId : String) (db : List ServiceAreaRow)
    (services : List Service) : Gateway :=
  { createSA := fun fd => (createServiceAreaAction auth fd freshId db).2.1
    updateSA := fun fd => (updateServiceAreaAction auth fd db).2.1
    deleteSA := fun i => (deleteServiceAreaAction auth i db).2.1
    listSA := fun cid => (getServiceAreasAction auth cid db).2.1
    servicesSA := fun _ => ActionResult.ok "Services fetched successfully" (some services) }

/-- A closed square ring matching concrete scenario B of the spec. -/
def squareRing : List (Int × Int) := [(0, 0), (0, 1), (1, 1), (1, 0), (0, 0)]

/-- A second, disjoint closed ring. -/
def triRing : List (Int × Int) := [(2, 2), (2, 3), (3, 3), (2, 2)]

/-- A single-polygon geometry. -/
def samplePolygon : GeoJson := GeoJson.polygon [squareRing]

/-- Another single-polygon geometry. -/
def secondPolygon : GeoJson := GeoJson.polygon [triRing]

/-- A MultiPolygon geometry, used to probe the Polygon-only invariant. -/
def sampleMulti : GeoJson := GeoJson.multiPolygon [[squareRing], [triRing]]

/-- A session whose verified email is the row owner's. -/
def ownerAuth : AuthState := { user := some { email := "owner@example.com" }, authError := false }

/-- A session whose verified email differs from the row owner's. -/
def attackerAuth : AuthState :=
  { user := some { email := "attacker@example.com" }, authError := false }

/-- An auth lookup that yields no user. -/
def noUserAuth : AuthState := { user := none, authError := false }

/-- A sample service of company c1. -/
def sampleService : Service := { id := "s1", name := "Lawn mowing" }

/-- A persisted service area owned by owner@example.com, currently inactive. -/
def ownerRow : ServiceAreaRow :=
  { id := "sa1", service_id := "s1", company_id := some "c1", geojson := samplePolygon,
    is_active := false, email := "owner@example.com" }

/-- The same row with a MultiPolygon geometry, reachable because the update
path never validates the geometry type. -/
def multiRow : ServiceAreaRow := { ownerRow with geojson := sampleMulti, is_active := true }

/-- The component state in Idle mode with one cached area and one service. -/
def idleState : MapState :=
  { mode := none, serviceAreas := [ownerRow], services := [sampleService],
    selectedServiceArea := none, newServiceArea := none, selectedService := none,
    isActive := true, loading := false, layers := [] }

/-- Drawing mode with a drawn square and service s1 selected, empty store. -/
def drawState : MapState :=
  { idleState with
    mode := some Mode.drawServiceArea
    serviceAreas := []
    newServiceArea := some samplePolygon
    selectedService := some "s1" }

/-- Drawing mode for a company with zero services: no service can be selected. -/
def zeroServicesDrawState : MapState :=
  { idleState with
    mode := some Mode.drawServiceArea
    serviceAreas := []
    services := []
    newServiceArea := some samplePolygon
    selectedService := none }

/-- Editing mode with the MultiPolygon row selected. -/
def editMultiState : MapState :=
  { idleState with
    mode := some Mode.editServiceArea
    serviceAreas := [multiRow]
    selectedServiceArea := some multiRow
    selectedService := some "s1"
    layers := [sampleMulti] }

/-- Editing mode where the feature group reports two concurrent shapes. -/
def editTwoLayersState : MapState :=
  { idleState with
    mode := some Mode.editServiceArea
    selectedServiceArea := some ownerRow
    selectedService := some "s1"
    layers := [samplePolygon, secondPolygon] }

/-- Server actions over an empty store under the owner session. -/
def drawGateway : Gateway := serverGateway ownerAuth "new1" [] [sampleService]

/-- Server actions over the store holding the MultiPolygon row, owner session. -/
def ownerGatewayMulti : Gateway := serverGateway ownerAuth "new1" [multiRow] [sampleService]

/-- Server actions over the store holding ownerRow, owner session. -/
def ownerGateway : Gateway := serverGateway ownerAuth "new1" [ownerRow] [sampleService]

/-- A Gateway on which every call fails, for the error-path claims. -/
def failGateway : Gateway :=
  { createSA := fun _ => ActionResult.err "network error"
    updateSA := fun _ => ActionResult.err "network error"
    deleteSA := fun _ => ActionResult.err "network error"
    listSA := fun _ => ActionResult.err "network error"
    servicesSA := fun _ => ActionResult.err "network error" }

/-- Number of full-reload (listAreas) calls in a client call log. -/
def countListAreas (cs : List ClientCall) : Nat :=
  cs.countP (fun c => match c with | ClientCall.listAreas _ => true | _ => false)

/-- The Drawing-path FormData extended with a client-supplied owner field,
which the create action must ignore. -/
def fdWithOwnerField (ownerVal : String) : FormData :=
  saveFormData "c1" "s1" samplePolygon true ++ [("email", FormValue.str ownerVal)]

/-! Theorems. -/

/-- The eq-eq filter chain holds exactly on rows matching both the identifier
and the owner email. -/
theorem rowMatches_iff (id email : String) (r : ServiceAreaRow) :
    rowMatches id email r = true ↔ (r.id = id ∧ r.email = email) := by
  simp [rowMatches]

/-- The first component of updateServiceArea is the pointwise update of the
store at rows matching both filters. -/
theorem updateServiceArea_fst (p : UpdatePayload) (db : List ServiceAreaRow) :
    (updateServiceArea p db).1 =
      db.map (fun r => if rowMatches p.id p.email r then applyUpdate p r else r) := by
  unfold updateServiceArea
  dsimp only
  split <;> rfl

/-- C3: an update through the Gateway modifies only rows matching both the
supplied identifier and the supplied owner email (all other rows survive
unchanged), and when no row matches both — in particular when the row exists
under a different owner email — updateServiceArea returns an error result and
leaves the store unchanged. -/
theorem updateServiceArea_owner_scoped (p : UpdatePayload) (db : List ServiceAreaRow) :
    (∀ r ∈ db, ¬ (r.id = p.id ∧ r.email = p.email) → r ∈ (updateServiceArea p db).1)
    ∧ ((∀ r ∈ db, ¬ (r.id = p.id ∧ r.email = p.email)) →
        (updateServiceArea p db).2 =
          { serviceArea := none,
            error := some "JSON object requested, multiple (or no) rows returned" }
        ∧ (updateServiceArea p db).1 = db) := by
  have hfalse : ∀ r ∈ db, ¬ (r.id = p.id ∧ r.email = p.email) →
      rowMatches p.id p.email r = false := by
    intro r hr hn
    cases hb : rowMatches p.id p.email r
    · rfl
    · exact absurd ((rowMatches_iff _ _ _).mp hb) hn
  constructor
  · intro r hr hn
    rw [updateServiceArea_fst]
    refine List.mem_map.mpr ⟨r, hr, ?_⟩
    rw [hfalse r hr hn]
    rfl
  · intro hall
    have hfil : db.filter (rowMatches p.id p.email) = [] := by
      rw [List.filter_eq_nil_iff]
      intro a ha
      rw [hfalse a ha (hall a ha)]
      exact Bool.false_ne_true
    have hmap : db.map (fun r => if rowMatches p.id p.email r then applyUpdate p r else r)
        = db := by
      have hcong : db.map (fun r => if rowMatches p.id p.email r then applyUpdate p r else r)
          = db.map id := by
        refine List.map_congr_left ?_
        intro r hr
        rw [hfalse r hr (hall r hr)]
        rfl
      rw [hcong, List.map_id]
    refine ⟨?_, ?_⟩
    · simp only [updateServiceArea, hfil]
    · rw [updateServiceArea_fst, hmap]

/-- Witness for updateServiceArea_owner_scoped: updating the row under an
attacker email that matches no stored (id, email) pair yields an error result
and an unchanged store. -/
theorem updateServiceArea_owner_scoped_witness :
    (updateServiceArea
        { id := "sa1", geojson := samplePolygon, is_active := true,
          email := "attacker@example.com" } [ownerRow]).2 =
      { serviceArea := none,
        error := some "JSON object requested, multiple (or no) rows returned" }
    ∧ (updateServiceArea
        { id := "sa1", geojson := samplePolygon, is_active := true,
          email := "attacker@example.com" } [ownerRow]).1 = [ownerRow] :=
  (updateServiceArea_owner_scoped
    { id := "sa1", geojson := samplePolygon, is_active := true,
      email := "attacker@example.com" } [ownerRow]).2 (by decide)

/-- C10: each exported service-area action first resolves the session user and,
whenever the auth lookup errors or yields no user, returns the failure result
with error "User not authenticated", issues no Gateway call and leaves the
store unchanged; this holds for the create, update, delete and list actions,
and for the part_003 variant of create. -/
theorem actions_require_auth (auth : AuthState) (fd : FormData)
    (said cid freshId : String) (db : List ServiceAreaRow)
    (h : auth.authError = true ∨ auth.user = none) :
    createServiceAreaAction auth fd freshId db =
      (db, ActionResult.err "User not authenticated", [])
    ∧ updateServiceAreaAction auth fd db = (db, ActionResult.err "User not authenticated", [])
    ∧ deleteServiceAreaAction auth said db = (db, ActionResult.err "User not authenticated", [])
    ∧ getServiceAreasAction auth cid db = (db, ActionResult.err "User not authenticated", [])
    ∧ createServiceAreaActionV2 auth fd freshId db =
        (db, ActionResult.err "User not authenticated", []) := by
  obtain ⟨ou, ae⟩ := auth
  rcases h with h | h
  · simp only at h
    subst h
    cases ou <;>
      simp [createServiceAreaAction, updateServiceAreaAction, deleteServiceAreaAction,
        getServiceAreasAction, createServiceAreaActionV2]
  · simp only at h
    subst h
    simp [createServiceAreaAction, updateServiceAreaAction, deleteServiceAreaAction,
      getServiceAreasAction, createServiceAreaActionV2]

/-- Witness for actions_require_auth: with an absent user every action returns
the unauthenticated failure without touching the store. -/
theorem actions_require_auth_witness :
    createServiceAreaAction noUserAuth [] "new1" [ownerRow] =
      ([ownerRow], ActionResult.err "User not authenticated", [])
    ∧ deleteServiceAreaAction noUserAuth "sa1" [ownerRow] =
      ([ownerRow], ActionResult.err "User not authenticated", []) :=
  ⟨(actions_require_auth noUserAuth [] "sa1" "c1" "new1" [ownerRow] (Or.inr rfl)).1,
   (actions_require_auth noUserAuth [] "sa1" "c1" "new1" [ownerRow] (Or.inr rfl)).2.2.1⟩

/-- C7: a Save attempt in Drawing mode with a null candidate geometry or no
selected service (also the JS-falsy empty selection) produces the
missing-required-fields toast, issues no Gateway call, and leaves the whole
component state — mode, selection, candidate geometry included — unchanged. -/
theorem save_missing_fields_no_transition (gw : Gateway) (companyId : String) (st : MapState)
    (h : st.newServiceArea = none ∨ st.selectedService = none
         ∨ st.selectedService = some "") :
    handleSaveServiceArea gw companyId st = (st, [missingFieldsToast], []) := by
  rcases h with h | h | h
  · cases hs : st.selectedService <;> simp [handleSaveServiceArea, h, hs]
  · cases hn : st.newServiceArea <;> simp [handleSaveServiceArea, h, hn]
  · cases hn : st.newServiceArea <;> simp [handleSaveServiceArea, h, hn]

/-- Witness for save_missing_fields_no_transition: a company with zero services
(no service selectable) attempting Save in Drawing mode fails with the
missing-fields toast, no Gateway call, and no state transition. -/
theorem save_missing_fields_no_transition_witness :
    handleSaveServiceArea drawGateway "c1" zeroServicesDrawState =
      (zeroServicesDrawState, [missingFieldsToast], []) :=
  save_missing_fields_no_transition drawGateway "c1" zeroServicesDrawState
    (Or.inr (Or.inl rfl))

/-- Every Gateway create call issued by createServiceAreaAction carries the
session email, and every row the action adds to the store carries it too. -/
theorem createServiceAreaAction_email (auth : AuthState) (u : AuthUser) (fd : FormData)
    (freshId : String) (db : List ServiceAreaRow)
    (hu : auth.user = some u) :
    (∀ p : CreatePayload,
        GatewayCall.create p ∈ (createServiceAreaAction auth fd freshId db).2.2 →
        p.email = u.email)
    ∧ (∀ r ∈ (createServiceAreaAction auth fd freshId db).1, r ∈ db ∨ r.email = u.email) := by
  unfold createServiceAreaAction
  rw [hu]
  dsimp only
  constructor
  · intro p hp
    split at hp
    · simp at hp
    · split at hp
      · simp at hp
      · split at hp
        · simp at hp
        · split at hp <;>
          · simp only [List.mem_singleton, GatewayCall.create.injEq] at hp
            subst hp
            rfl
  · intro r hr
    split at hr
    · exact Or.inl hr
    · split at hr
      · exact Or.inl hr
      · split at hr
        · exact Or.inl hr
        · split at hr <;>
          · simp only [createServiceArea, List.mem_append, List.mem_singleton] at hr
            rcases hr with hr | hr
            · exact Or.inl hr
            · subst hr
              exact Or.inr rfl

/-- The same for the part_003 variant of the create action. -/
theorem createServiceAreaActionV2_email (auth : AuthState) (u : AuthUser) (fd : FormData)
    (freshId : String) (db : List ServiceAreaRow)
    (hu : auth.user = some u) :
    ∀ p : CreatePayload,
      GatewayCall.create p ∈ (createServiceAreaActionV2 auth fd freshId db).2.2 →
      p.email = u.email := by
  unfold createServiceAreaActionV2
  rw [hu]
  dsimp only
  intro p hp
  split at hp
  · simp at hp
  · split at hp
    · simp at hp
    · split at hp
      · simp at hp
      · split at hp <;>
        · simp only [List.mem_singleton, GatewayCall.create.injEq] at hp
          subst hp
          rfl

/-- C4: under an authenticated session, the owner email stamped on the Gateway
create payload — and on any row the create adds to the store — is the session
user's verified email, for all client-supplied FormData; consequently two runs
with the same session but different client-supplied owner fields store the
same owner email. The part_003 variant of the action behaves identically. -/
theorem create_stamps_session_email (auth : AuthState) (u : AuthUser)
    (fd fd1 fd2 : FormData) (freshId f1 f2 : String) (db db1 db2 : List ServiceAreaRow)
    (p p1 p2 : CreatePayload)
    (hu : auth.user = some u) :
    (GatewayCall.create p ∈ (createServiceAreaAction auth fd freshId db).2.2 →
      p.email = u.email)
    ∧ (∀ r ∈ (createServiceAreaAction auth fd freshId db).1, r ∈ db ∨ r.email = u.email)
    ∧ (GatewayCall.create p1 ∈ (createServiceAreaAction auth fd1 f1 db1).2.2 →
       GatewayCall.create p2 ∈ (createServiceAreaAction auth fd2 f2 db2).2.2 →
       p1.email = p2.email)
    ∧ (GatewayCall.create p ∈ (createServiceAreaActionV2 auth fd freshId db).2.2 →
       p.email = u.email) := by
  refine ⟨(createServiceAreaAction_email auth u fd freshId db hu).1 p,
          (createServiceAreaAction_email auth u fd freshId db hu).2,
          ?_,
          createServiceAreaActionV2_email auth u fd freshId db hu p⟩
  intro h1 h2
  rw [(createServiceAreaAction_email auth u fd1 f1 db1 hu).1 p1 h1,
      (createServiceAreaAction_email auth u fd2 f2 db2 hu).1 p2 h2]

/-- Witness for create_stamps_session_email: two creates under the owner
session, one with a client-supplied owner field attacker@example.com and one
with other@example.com, both stamp owner@example.com on the Gateway payload. -/
theorem create_stamps_session_email_witness :
    ({ service_id := "s1", company_id := some "c1", geojson := samplePolygon,
       is_active := true, email := "owner@example.com" } : CreatePayload).email
      = "owner@example.com" :=
  (create_stamps_session_email ownerAuth { email := "owner@example.com" }
      (fdWithOwnerField "attacker@example.com")
      (fdWithOwnerField "attacker@example.com") (fdWithOwnerField "other@example.com")
      "new1" "new1" "new2" [] [] []
      { service_id := "s1", company_id := some "c1", geojson := samplePolygon,
        is_active := true, email := "owner@example.com" }
      { service_id := "s1", company_id := some "c1", geojson := samplePolygon,
        is_active := true, email := "owner@example.com" }
      { service_id := "s1", company_id := some "c1", geojson := samplePolygon,
        is_active := true, email := "owner@example.com" }
      rfl).1 (by decide)

/-- C2 counterexample: deleting sa1 under attacker@example.com, while the
stored row is owned by owner@example.com, returns the SUCCESS result — not a
failure — so no error is surfaced; the store (and hence the reloaded cache) is
unchanged only because zero rows matched the delete filters. -/
theorem delete_mismatched_email_reports_success_cx :
    deleteServiceAreaAction attackerAuth "sa1" [ownerRow] =
      ([ownerRow], ActionResult.ok "Service area deleted successfully" none,
       [GatewayCall.delete "sa1" "attacker@example.com"])
    ∧ (getServiceAreasAction attackerAuth "c1"
         (deleteServiceAreaAction attackerAuth "sa1" [ownerRow]).1).2.1 =
        ActionResult.ok "Service areas fetched successfully" (some [ownerRow]) := by
  constructor <;> rfl

/-- C2 amended: a delete whose (id, email) scope matches no stored row — in
particular one issued under an email different from the stored owner email —
removes nothing: the store is unchanged and a reload returns exactly the
previous list; but the Gateway reports success and the action returns the
success result, so no error is surfaced. -/
theorem delete_mismatched_email_noop_success (auth : AuthState) (u : AuthUser)
    (said cid : String) (db : List ServiceAreaRow)
    (hu : auth.user = some u) (hae : auth.authError = false)
    (hnone : ∀ r ∈ db, ¬ (r.id = said ∧ r.email = u.email)) :
    (deleteServiceAreaAction auth said db).1 = db
    ∧ (deleteServiceAreaAction auth said db).2.1 =
        ActionResult.ok "Service area deleted successfully" none
    ∧ getServiceAreasAction auth cid (deleteServiceAreaAction auth said db).1 =
        getServiceAreasAction auth cid db := by
  have hall : ∀ r ∈ db, (!rowMatches said u.email r) = true := by
    intro r hr
    cases hb : rowMatches said u.email r
    · rfl
    · exact absurd ((rowMatches_iff _ _ _).mp hb) (hnone r hr)
  have hkeep : db.filter (fun r => !rowMatches said u.email r) = db :=
    List.filter_eq_self.mpr hall
  have hfst : (deleteServiceAreaAction auth said db).1 = db := by
    simp [deleteServiceAreaAction, hu, hae, deleteServiceArea, hkeep]
  refine ⟨hfst, ?_, by rw [hfst]⟩
  simp [deleteServiceAreaAction, hu, hae, deleteServiceArea]

/-- Witness for delete_mismatched_email_noop_success at the concrete attacker
scenario of the spec. -/
theorem delete_mismatched_email_noop_success_witness :
    (deleteServiceAreaAction attackerAuth "sa1" [ownerRow]).1 = [ownerRow]
    ∧ (deleteServiceAreaAction attackerAuth "sa1" [ownerRow]).2.1 =
        ActionResult.ok "Service area deleted successfully" none :=
  ⟨(delete_mismatched_email_noop_success attackerAuth { email := "attacker@example.com" }
      "sa1" "c1" [ownerRow] rfl rfl (by decide)).1,
   (delete_mismatched_email_noop_success attackerAuth { email := "attacker@example.com" }
      "sa1" "c1" [ownerRow] rfl rfl (by decide)).2.1⟩

/-- C1 counterexample: with the stored area's geometry a MultiPolygon, the
Editing save path issues the Gateway update call and it succeeds — no
geometry-type check and no validation failure occur on that path, so the
claimed Polygon enforcement before every create AND update is false. -/
theorem update_path_no_polygon_check_cx :
    sampleMulti.typeName = "MultiPolygon"
    ∧ (updateServiceAreaAction ownerAuth
        (updateFormData "c1" multiRow (some "s1") true) [multiRow]).2.2 =
      [GatewayCall.update
        { id := "sa1", geojson := sampleMulti, is_active := true,
          email := "owner@example.com" }]
    ∧ (updateServiceAreaAction ownerAuth
        (updateFormData "c1" multiRow (some "s1") true) [multiRow]).2.1 =
      ActionResult.ok "Service area updated successfully" (some multiRow)
    ∧ (handleUpdateServiceArea ownerGatewayMulti "c1" editMultiState).2.2.head? =
      some (ClientCall.update (updateFormData "c1" multiRow (some "s1") true)) := by
  refine ⟨rfl, ?_, ?_, ?_⟩ <;> rfl

/-- C1 amended: the Polygon-type check guards only the Drawing save path, where
a non-Polygon candidate produces the single-polygon toast with no Gateway call
and no state change; the Editing save path performs no geometry-type check and
always issues the Gateway update carrying the selected area's current geometry,
whatever its type. -/
theorem polygon_check_drawing_path_only (gw : Gateway) (companyId : String) (st : MapState)
    (g : GeoJson) (svc : String) (sel : ServiceAreaRow) :
    (st.newServiceArea = some g → st.selectedService = some svc → svc ≠ "" →
      g.typeName ≠ "Polygon" →
      handleSaveServiceArea gw companyId st = (st, [singlePolygonToast], []))
    ∧ (st.selectedServiceArea = some sel →
      ClientCall.update (updateFormData companyId sel st.selectedService st.isActive)
        ∈ (handleUpdateServiceArea gw companyId st).2.2) := by
  constructor
  · intro hg hs hne htype
    have hb : (svc == "") = false := by simp [hne]
    simp [handleSaveServiceArea, hg, hs, hb, htype]
  · intro hsel
    unfold handleUpdateServiceArea
    rw [hsel]
    dsimp only
    split
    · exact List.mem_cons_self _ _
    · exact List.mem_cons_self _ _

/-- Witness for polygon_check_drawing_path_only: a MultiPolygon candidate in
Drawing mode is rejected before any call, while the Editing path issues the
update for the MultiPolygon row. -/
theorem polygon_check_drawing_path_only_witness :
    handleSaveServiceArea drawGateway "c1"
        { drawState with newServiceArea := some sampleMulti } =
      ({ drawState with newServiceArea := some sampleMulti }, [singlePolygonToast], [])
    ∧ ClientCall.update (updateFormData "c1" multiRow (some "s1") true)
        ∈ (handleUpdateServiceArea ownerGatewayMulti "c1" editMultiState).2.2 :=
  ⟨(polygon_check_drawing_path_only drawGateway "c1"
      { drawState with newServiceArea := some sampleMulti } sampleMulti "s1" multiRow).1
      rfl rfl (by decide) (by decide),
   (polygon_check_drawing_path_only ownerGatewayMulti "c1" editMultiState
      sampleMulti "s1" multiRow).2 rfl⟩

/-- C5: code-bug evidence. The Editing save path sends the newly selected
service s2 in the FormData, the action reports success, yet the stored row
still references s1: updateServiceAreaAction builds its Gateway payload
without a service_id field, so a service change made while editing is
silently dropped. -/
theorem update_action_drops_service_id :
    (updateFormData "c1" ownerRow (some "s2") true).get "service_id" =
      some (FormValue.str "s2")
    ∧ (updateServiceAreaAction ownerAuth
        (updateFormData "c1" ownerRow (some "s2") true) [ownerRow]).2.2 =
      [GatewayCall.update
        { id := "sa1", geojson := samplePolygon, is_active := true,
          email := "owner@example.com" }]
    ∧ ((updateServiceAreaAction ownerAuth
        (updateFormData "c1" ownerRow (some "s2") true) [ownerRow]).1.map
          ServiceAreaRow.service_id) = ["s1"]
    ∧ (updateServiceAreaAction ownerAuth
        (updateFormData "c1" ownerRow (some "s2") true) [ownerRow]).2.1 =
      ActionResult.ok "Service area updated successfully"
        (some { ownerRow with is_active := true }) := by
  refine ⟨?_, ?_, ?_, ?_⟩ <;> rfl

/-- C6 counterexample: a successful Drawing save triggers the full reload
twice — once directly and once via handleCancelEdit — not exactly once as
claimed: the complete call log is one create followed by two listAreas calls. -/
theorem reload_after_save_twice_cx :
    (handleSaveServiceArea drawGateway "c1" drawState).2.2 =
      [ClientCall.create (saveFormData "c1" "s1" samplePolygon true),
       ClientCall.listAreas "c1", ClientCall.listAreas "c1"]
    ∧ countListAreas (handleSaveServiceArea drawGateway "c1" drawState).2.2 = 2 := by
  constructor <;> rfl

/-- C6 amended: after every successful create, update or delete mutation the
full reload is invoked exactly twice (once directly, once via handleCancelEdit),
and the resulting cache equals the Gateway's full list — no residual stale
entries and no duplicates beyond what the Gateway itself returns. -/
theorem reload_twice_cache_synced (gw : Gateway) (companyId : String) (st : MapState)
    (g : GeoJson) (svc : String) (sel : ServiceAreaRow)
    (m msg : String) (okd : Option ServiceAreaRow) (okdu : Option Unit)
    (data : List ServiceAreaRow)
    (hlist : gw.listSA companyId = ActionResult.ok m (some data)) :
    (st.newServiceArea = some g → st.selectedService = some svc → svc ≠ "" →
      g.typeName = "Polygon" →
      gw.createSA (saveFormData companyId svc g st.isActive) = ActionResult.ok msg okd →
      countListAreas (handleSaveServiceArea gw companyId st).2.2 = 2
      ∧ (handleSaveServiceArea gw companyId st).1.serviceAreas = data)
    ∧ (st.selectedServiceArea = some sel →
      gw.updateSA (updateFormData companyId sel st.selectedService st.isActive) =
        ActionResult.ok msg okd →
      countListAreas (handleUpdateServiceArea gw companyId st).2.2 = 2
      ∧ (handleUpdateServiceArea gw companyId st).1.serviceAreas = data)
    ∧ (st.selectedServiceArea = some sel →
      gw.deleteSA sel.id = ActionResult.ok msg okdu →
      countListAreas (handleDeleteServiceArea gw companyId st).2.2 = 2
      ∧ (handleDeleteServiceArea gw companyId st).1.serviceAreas = data) := by
  refine ⟨?_, ?_, ?_⟩
  · intro hg hs hne htype hcreate
    have hb : (svc == "") = false := by simp [hne]
    constructor <;>
      simp [handleSaveServiceArea, hg, hs, hb, htype, hcreate, loadServiceAreas,
        handleCancelEdit, hlist, countListAreas]
  · intro hsel hupd
    constructor <;>
      simp [handleUpdateServiceArea, hsel, hupd, loadServiceAreas,
        handleCancelEdit, hlist, countListAreas]
  · intro hsel hdel
    constructor <;>
      simp [handleDeleteServiceArea, hsel, hdel, loadServiceAreas,
        handleCancelEdit, hlist, countListAreas]

/-- Witness for reload_twice_cache_synced at the concrete Drawing save over an
empty store. -/
theorem reload_twice_cache_synced_witness :
    countListAreas (handleSaveServiceArea drawGateway "c1" drawState).2.2 = 2
    ∧ (handleSaveServiceArea drawGateway "c1" drawState).1.serviceAreas = [] :=
  (reload_twice_cache_synced drawGateway "c1" drawState samplePolygon "s1" ownerRow
      "Service areas fetched successfully" "Service area created successfully"
      (some { id := "new1", service_id := "s1", company_id := some "c1",
              geojson := samplePolygon, is_active := true, email := "owner@example.com" })
      none [] rfl).1
    rfl rfl (by decide) rfl (by decide)

/-- C8 counterexample: with two concurrent shapes in the transient layer the
controller surfaces the exactly-one-polygon toast and picks neither shape, but
it does NOT refuse the subsequent Save: handleUpdateServiceArea still issues
the Gateway update (with the previously accepted geometry) and it succeeds. -/
theorem multi_shape_save_not_refused_cx :
    updateSelectedServiceAreaGeometries editTwoLayersState =
      (editTwoLayersState, [exactlyOnePolygonToast])
    ∧ (handleUpdateServiceArea ownerGateway "c1" editTwoLayersState).2.2.head? =
      some (ClientCall.update (updateFormData "c1" ownerRow (some "s1") true))
    ∧ ownerGateway.updateSA (updateFormData "c1" ownerRow (some "s1") true) =
      ActionResult.ok "Service area updated successfully"
        (some { ownerRow with is_active := true }) :=
  ⟨rfl, rfl, rfl⟩

/-- C8 amended: after every shape-created event at most one shape remains in
the transient layer (onCreated clears it first); whenever the toolkit reports
a layer count other than one the controller surfaces the exactly-one-polygon
toast and changes nothing — it does not silently pick a shape — but Save is
not blocked: a subsequent Editing save still issues the Gateway update with
the previously accepted geometry. -/
theorem single_shape_invariant_save_not_blocked (st : MapState) (g : GeoJson)
    (gw : Gateway) (companyId : String) (sel : ServiceAreaRow) :
    (onCreated st g).1.layers.length ≤ 1
    ∧ (st.layers.length ≠ 1 →
        updateSelectedServiceAreaGeometries st = (st, [exactlyOnePolygonToast]))
    ∧ (st.layers.length ≠ 1 → st.selectedServiceArea = some sel →
        ClientCall.update (updateFormData companyId sel st.selectedService st.isActive)
          ∈ (handleUpdateServiceArea gw companyId st).2.2) := by
  refine ⟨?_, ?_, ?_⟩
  · simp only [onCreated]
    split
    · simp
    · split
      · simp [updateSelectedServiceAreaGeometries]
      · simp
    · simp
  · intro hne
    rcases hl : st.layers with _ | ⟨a, tail⟩
    · simp [updateSelectedServiceAreaGeometries, hl]
    · rcases tail with _ | ⟨b, t2⟩
      · rw [hl] at hne
        simp at hne
      · simp [updateSelectedServiceAreaGeometries, hl]
  · intro _ hsel
    unfold handleUpdateServiceArea
    rw [hsel]
    dsimp only
    split
    · exact List.mem_cons_self _ _
    · exact List.mem_cons_self _ _

/-- Witness for single_shape_invariant_save_not_blocked at the two-shape
Editing state. -/
theorem single_shape_invariant_save_not_blocked_witness :
    updateSelectedServiceAreaGeometries editTwoLayersState =
      (editTwoLayersState, [exactlyOnePolygonToast])
    ∧ ClientCall.update (updateFormData "c1" ownerRow (some "s1") true)
        ∈ (handleUpdateServiceArea ownerGateway "c1" editTwoLayersState).2.2 :=
  ⟨(single_shape_invariant_save_not_blocked editTwoLayersState samplePolygon ownerGateway
      "c1" ownerRow).2.1 (by decide),
   (single_shape_invariant_save_not_blocked editTwoLayersState samplePolygon ownerGateway
      "c1" ownerRow).2.2 (by decide) rfl⟩

/-- C9: every failing Gateway call produces a user-observable error toast and
leaves all editor state except the transient loading flag unchanged: the
caches of service areas and services, the mode, the candidate geometry, the
selection and the transient layers are exactly as before, so the user may
retry or cancel. -/
theorem gateway_failure_preserves_state (gw : Gateway) (companyId : String) (st : MapState)
    (e : String) (g : GeoJson) (svc : String) (sel : ServiceAreaRow) :
    (gw.listSA companyId = ActionResult.err e →
      loadServiceAreas gw companyId st =
        (st, [{ title := "Error",
                description := "Failed to load service areas: "
                  ++ (if e == "" then "Unknown error" else e),
                isError := true }], [ClientCall.listAreas companyId]))
    ∧ (gw.servicesSA companyId = ActionResult.err e →
      loadServices gw companyId st =
        (st, [{ title := "Error",
                description := "Failed to load services: "
                  ++ (if e == "" then "Unknown error" else e),
                isError := true }], [ClientCall.listServices companyId]))
    ∧ (st.newServiceArea = some g → st.selectedService = some svc → svc ≠ "" →
      g.typeName = "Polygon" →
      gw.createSA (saveFormData companyId svc g st.isActive) = ActionResult.err e →
      handleSaveServiceArea gw companyId st =
        ({ st with loading := false },
         [{ title := "Error", description := "Failed to save service area: " ++ e,
            isError := true }],
         [ClientCall.create (saveFormData companyId svc g st.isActive)]))
    ∧ (st.selectedServiceArea = some sel →
      gw.updateSA (updateFormData companyId sel st.selectedService st.isActive) =
        ActionResult.err e →
      handleUpdateServiceArea gw companyId st =
        ({ st with loading := false },
         [{ title := "Error", description := "Failed to update service area: " ++ e,
            isError := true }],
         [ClientCall.update (updateFormData companyId sel st.selectedService st.isActive)]))
    ∧ (st.selectedServiceArea = some sel →
      gw.deleteSA sel.id = ActionResult.err e →
      handleDeleteServiceArea gw companyId st =
        ({ st with loading := false },
         [{ title := "Error", description := "Failed to delete service area: " ++ e,
            isError := true }],
         [ClientCall.delete sel.id])) := by
  refine ⟨?_, ?_, ?_, ?_, ?_⟩
  · intro h
    simp [loadServiceAreas, h]
  · intro h
    simp [loadServices, h]
  · intro hg hs hne htype hc
    have hb : (svc == "") = false := by simp [hne]
    simp [handleSaveServiceArea, hg, hs, hb, htype, hc]
  · intro hsel hu
    simp [handleUpdateServiceArea, hsel, hu]
  · intro hsel hd
    simp [handleDeleteServiceArea, hsel, hd]

/-- Witness for gateway_failure_preserves_state: on an all-failing Gateway the
load keeps the cache and the Editing save failure leaves everything but the
loading flag untouched, each with its error toast. -/
theorem gateway_failure_preserves_state_witness :
    loadServiceAreas failGateway "c1" idleState =
      (idleState,
       [{ title := "Error", description := "Failed to load service areas: network error",
          isError := true }], [ClientCall.listAreas "c1"])
    ∧ handleUpdateServiceArea failGateway "c1"
        { idleState with selectedServiceArea := some ownerRow } =
      ({ idleState with selectedServiceArea := some ownerRow, loading := false },
       [{ title := "Error", description := "Failed to update service area: network error",
          isError := true }],
       [ClientCall.update (updateFormData "c1" ownerRow none true)]) :=
  ⟨(gateway_failure_preserves_state failGateway "c1" idleState "network error"
      samplePolygon "s1" ownerRow).1 rfl,
   (gateway_failure_preserves_state failGateway "c1"
      { idleState with selectedServiceArea := some ownerRow } "network error"
      samplePolygon "s1" ownerRow).2.2.2.1 rfl rfl⟩

end LocalPages
